import Mathlib

/-!
Verification of the command-retry executor, availability gates, capability
resolver and volume read of the `pioneer_async` Home Assistant integration
(files `custom_components/pioneer_async/entity_base.py` and
`custom_components/pioneer_async/media_player.py`).

The embedding is shallow: each Python function is translated into a Lean
function over explicit state.  The retry loop `PioneerEntityBase.pioneer_command`
is modelled as a recursive function producing the full observable trace of a
run (coroutine invocations and inter-attempt sleeps) together with the surfaced
outcome.  Dictionaries of the `aiopioneer` state object are modelled as
association lists with `List.lookup` (Python `dict.get`), and Python truthiness
of optional values is spelled out explicitly at each use site.
-/

namespace PioneerAsync

/-- Result of one invocation of the command coroutine `aw_f` passed to
`pioneer_command`: the coroutine may return the literal `False` (the retry
loop condition tests `await aw_f() is False`), return any other value
(`None`, a response, ...), or raise an exception whose string rendering is
`msg`. -/
inductive ActionResult
  | accepted
  | notAccepted
  | raises (msg : String)
deriving DecidableEq

/-- Observable events of one `pioneer_command` run: `call i` is the i-th
invocation of `aw_f` (0-based) and `sleep` is one `asyncio.sleep(1)`
inter-attempt delay. -/
inductive Event
  | call (i : Nat)
  | sleep
deriving DecidableEq

/-- Predicate selecting invocation events in a trace. -/
def isCall : Event → Bool
  | .call _ => true
  | .sleep => false

/-- Predicate selecting inter-attempt delay events in a trace. -/
def isSleep : Event → Bool
  | .call _ => false
  | .sleep => true

/-- Surfaced outcome of a call to `pioneer_command`: normal return
(`Confirmed`), the `ServiceValidationError` raised when the attempt bound is
reached (`Exhausted`, carrying the surfaced message), the
`ServiceValidationError` wrapping an exception raised by `aw_f` (`Rejected`),
or the `TypeError` Python raises for a call with an unexpected keyword
argument, before the function body ever runs. -/
inductive Outcome
  | Confirmed
  | Exhausted (msg : String)
  | Rejected (msg : String)
  | TypeErrorUnexpectedKw (kw : String)
deriving DecidableEq

/-- Trace and outcome of one executor run. -/
structure ExecResult where
  trace : List Event
  outcome : Outcome
deriving DecidableEq

/-- Message of the `ServiceValidationError` raised at `entity_base.py:72`
when the attempt bound is reached. -/
def unavailMsg (name : String) : String :=
  "AVR command " ++ name ++ " unavailable"

/-- Message of the wrapping `ServiceValidationError` raised at
`entity_base.py:74-76` by the `except` clause around the retry loop. -/
def failedMsg (name msg : String) : String :=
  "AVR command " ++ name ++ " failed: " ++ msg

/-- Retry loop of `PioneerEntityBase.pioneer_command` (`entity_base.py:62-76`).
The Python loop is `while count < max_count and await aw_f() is False:` with
body `sleep(1); count += 1; (warning)`, followed by
`if count >= max_count: raise ServiceValidationError(... unavailable)`, all
inside a `try` whose `except Exception` re-raises
`ServiceValidationError(... failed: exc)`.  Here `fuel` stands for
`max_count - count` (the loop adds 1 to `count` per iteration, so the loop
guard `count < max_count` is exactly `fuel > 0`), and `calls` counts the
invocations made so far, indexing the result sequence `act` of `aw_f`.
A raise of the inner unavailable error is caught by the same `except` clause,
so the `Exhausted` outcome carries the doubly wrapped message.  An exception
from `aw_f` itself propagates out of the loop guard and is wrapped once. -/
def pioneer_command_go (name : String) (act : Nat → ActionResult) :
    Nat → Nat → ExecResult
  | 0, _ => ⟨[], .Exhausted (failedMsg name (unavailMsg name))⟩
  | fuel + 1, calls =>
    match act calls with
    | .raises msg => ⟨[.call calls], .Rejected (failedMsg name msg)⟩
    | .accepted => ⟨[.call calls], .Confirmed⟩
    | .notAccepted =>
      let r := pioneer_command_go name act fuel (calls + 1)
      ⟨.call calls :: .sleep :: r.trace, r.outcome⟩

/-- Model of `PioneerEntityBase.pioneer_command(self, aw_f, max_count=4)`
(`entity_base.py:58-76`).  `name` is `aw_f.__name__` and `act i` gives the
behaviour of the i-th invocation of `aw_f`. -/
def pioneer_command (name : String) (act : Nat → ActionResult)
    (max_count : Nat := 4) : ExecResult :=
  pioneer_command_go name act max_count 0

/-- Expected prefix of a retrying trace: `j` failed invocations starting at
call index `c`, each followed by exactly one inter-attempt sleep. -/
def retryTraceFrom : Nat → Nat → List Event
  | _, 0 => []
  | c, j + 1 => .call c :: .sleep :: retryTraceFrom (c + 1) j

/-- Holds when a string contains no decimal digit, hence cannot spell out an
attempt count. -/
def digitFree (s : String) : Bool :=
  s.data.all (fun c => !c.isDigit)

/-- Zone identifiers of `aiopioneer.const.Zones`. -/
inductive Zones
  | Z1
  | Z2
  | Z3
  | HDZ
deriving DecidableEq

/-- Source identifier string `aiopioneer.const.SOURCE_TUNER`; the proofs only
compare it for equality, its concrete value is immaterial. -/
def SOURCE_TUNER : String := "02"

/-- Parameter key `aiopioneer.param.PARAM_DISABLE_AUTO_QUERY`. -/
def PARAM_DISABLE_AUTO_QUERY : String := "disable_auto_query"

/-- Parameter key `aiopioneer.param.PARAM_VOLUME_STEP_ONLY`. -/
def PARAM_VOLUME_STEP_ONLY : String := "volume_step_only"

/-- State of the `aiopioneer.PioneerAVR` object as read by the entity layer:
device-wide availability, the discovered zone list, and the per-zone
dictionaries `power`, `volume`, `max_volume`, `mute`, `source`, plus the
run-time parameter dictionary returned by `get_params()`.  Dictionaries are
association lists; `dict.get(k)` is `List.lookup k` (giving `none` for a
missing key) and `dict.get(k, d)` is `(List.lookup k).getD d`. -/
structure PioneerState where
  available : Bool
  zones : List Zones
  power : List (Zones × Bool)
  volume : List (Zones × Nat)
  max_volume : List (Zones × Nat)
  mute : List (Zones × Bool)
  source : List (Zones × String)
  params : List (String × Bool)
deriving DecidableEq

/-- Parameter names of `PioneerEntityBase.pioneer_command` besides `self`
(`entity_base.py:58`): `aw_f` and `max_count`. -/
def pioneer_command_param_names : List String :=
  ["aw_f", "max_count"]

/-- Keyword arguments of a call that match no parameter of
`pioneer_command`.  Python raises `TypeError: got an unexpected keyword
argument` for the first such keyword, before executing the function body. -/
def unexpected_kwargs (kwargs : List String) : List String :=
  kwargs.filter (fun k => !(pioneer_command_param_names.contains k))

/-- Call of `self.pioneer_command(aw_f, **kwargs)` with the given keyword
argument names: an unexpected keyword raises `TypeError` before `aw_f` is
ever invoked (empty trace); otherwise the executor body runs with the
default `max_count`. -/
def pioneer_command_call (name : String) (act : Nat → ActionResult)
    (kwargs : List String) (max_count : Nat := 4) : ExecResult :=
  match unexpected_kwargs kwargs with
  | [] => pioneer_command name act max_count
  | kw :: _ => ⟨[], .TypeErrorUnexpectedKw kw⟩

/-- Model of `PioneerZone.async_turn_on` (`media_player.py:403-409`):
`await self.pioneer_command(turn_on, repeat=True)`. -/
def async_turn_on (act : Nat → ActionResult) : ExecResult :=
  pioneer_command_call "turn_on" act ["repeat"]

/-- Model of `PioneerZone.async_turn_off` (`media_player.py:411-417`). -/
def async_turn_off (act : Nat → ActionResult) : ExecResult :=
  pioneer_command_call "turn_off" act ["repeat"]

/-- Model of `PioneerZone.async_select_source` (`media_player.py:419-425`). -/
def async_select_source (act : Nat → ActionResult) : ExecResult :=
  pioneer_command_call "select_source" act ["repeat"]

/-- Behaviour of a closure that awaits an underlying device call and
discards its result, like `volume_up` at `media_player.py:430-431`
(`async def volume_up() -> None: await self.pioneer.volume_up(...)`, no
`return`): an exception from the device call propagates, and otherwise the
closure returns `None` — never the literal `False`, whatever the device call
returned. -/
def discardResult : ActionResult → ActionResult
  | .raises msg => .raises msg
  | _ => .accepted

/-- Model of `PioneerZone.async_volume_up` (`media_player.py:427-433`):
`await self.pioneer_command(volume_up)` with no keyword arguments, hence the
default `max_count = 4`; the `volume_up` closure discards the result of
`pioneer.volume_up` (behaviour `dev i` on its i-th invocation) and returns
`None`. -/
def async_volume_up (dev : Nat → ActionResult) : ExecResult :=
  pioneer_command_call "volume_up" (fun i => discardResult (dev i)) []

/-- Model of `PioneerZone.async_volume_down` (`media_player.py:435-441`);
the `volume_down` closure likewise discards the device-call result. -/
def async_volume_down (dev : Nat → ActionResult) : ExecResult :=
  pioneer_command_call "volume_down" (fun i => discardResult (dev i)) []

/-- Model of `PioneerZone.async_set_volume_level` (`media_player.py:459-471`):
the keyword `repeat=True` is passed unless the `PARAM_VOLUME_STEP_ONLY`
parameter is truthy. -/
def async_set_volume_level (p : PioneerState) (act : Nat → ActionResult) :
    ExecResult :=
  if (p.params.lookup PARAM_VOLUME_STEP_ONLY).getD false then
    pioneer_command_call "set_volume_level" act []
  else
    pioneer_command_call "set_volume_level" act ["repeat"]

/-- Model of `PioneerZone.async_mute_volume` (`media_player.py:473-482`). -/
def async_mute_volume (act : Nat → ActionResult) : ExecResult :=
  pioneer_command_call "mute_volume" act ["repeat"]

/-- Model of `PioneerZone.async_select_sound_mode` (`media_player.py:484-491`). -/
def async_select_sound_mode (act : Nat → ActionResult) : ExecResult :=
  pioneer_command_call "select_sound_mode" act ["repeat"]

/-- Model of `PioneerZone.async_send_command` (`media_player.py:493-513`):
`await self.pioneer_command(send_command, command=command)`. -/
def async_send_command (act : Nat → ActionResult) : ExecResult :=
  pioneer_command_call "send_command" act ["command"]

/-- Model of `PioneerZone.async_set_tone_settings` (`media_player.py:545-559`). -/
def async_set_tone_settings (act : Nat → ActionResult) : ExecResult :=
  pioneer_command_call "set_tone_settings" act ["repeat"]

/-- Model of `PioneerZone.async_select_tuner_band` (`media_player.py:561-572`). -/
def async_select_tuner_band (act : Nat → ActionResult) : ExecResult :=
  pioneer_command_call "select_tuner_band" act ["repeat"]

/-- Model of `PioneerZone.async_set_fm_tuner_frequency`
(`media_player.py:574-585`). -/
def async_set_fm_tuner_frequency (act : Nat → ActionResult) : ExecResult :=
  pioneer_command_call "set_fm_tuner_frequency" act ["repeat"]

/-- Model of `PioneerZone.async_set_am_tuner_frequency`
(`media_player.py:587-598`). -/
def async_set_am_tuner_frequency (act : Nat → ActionResult) : ExecResult :=
  pioneer_command_call "set_am_tuner_frequency" act ["repeat"]

/-- Model of `PioneerZone.async_select_tuner_preset`
(`media_player.py:600-614`). -/
def async_select_tuner_preset (act : Nat → ActionResult) : ExecResult :=
  pioneer_command_call "select_tuner_preset" act ["repeat"]

/-- Model of `PioneerZone.async_set_channel_levels`
(`media_player.py:616-628`). -/
def async_set_channel_levels (act : Nat → ActionResult) : ExecResult :=
  pioneer_command_call "set_channel_levels" act ["repeat"]

/-- Features of `homeassistant` `MediaPlayerEntityFeature` referenced by
`PioneerZone.supported_features`, plus two features the entity never grants,
so that absence of any other grant is expressible. -/
inductive Feature
  | TURN_ON
  | TURN_OFF
  | VOLUME_SET
  | VOLUME_STEP
  | VOLUME_MUTE
  | SELECT_SOURCE
  | SELECT_SOUND_MODE
  | PREVIOUS_TRACK
  | NEXT_TRACK
  | PLAY
  | PAUSE
deriving DecidableEq, Fintype

/-- Model of `PioneerZone.supported_features` (`media_player.py:309-338`).
The Python code accumulates flags with `features |= ...`; accumulation of an
`IntFlag` union is modelled as `Finset` union, mirroring each conditional
block in order.  The sound-mode condition is
`self.zone == Zones.Z1 and not pioneer.get_params().get(PARAM_DISABLE_AUTO_QUERY)`
where `get` of a missing key yields falsy `None`. -/
def supported_features (p : PioneerState) (zone : Zones) : Finset Feature :=
  let features : Finset Feature := ∅
  let features :=
    if (p.power.lookup zone).isSome then
      features ∪ {Feature.TURN_ON, Feature.TURN_OFF} else features
  let features :=
    if (p.volume.lookup zone).isSome then
      features ∪ {Feature.VOLUME_SET, Feature.VOLUME_STEP} else features
  let features :=
    if (p.mute.lookup zone).isSome then
      features ∪ {Feature.VOLUME_MUTE} else features
  let features :=
    if (p.source.lookup zone).isSome then
      features ∪ {Feature.SELECT_SOURCE} else features
  let features :=
    if zone == Zones.Z1 && !((p.params.lookup PARAM_DISABLE_AUTO_QUERY).getD false) then
      features ∪ {Feature.SELECT_SOUND_MODE} else features
  let features :=
    if p.source.lookup zone == some SOURCE_TUNER then
      features ∪ {Feature.PREVIOUS_TRACK, Feature.NEXT_TRACK} else features
  features

/-- Feature accumulation of `supported_features` with the six conditions
abstracted as booleans, in the order the Python code tests them; by
construction `supported_features p zone` is this set at the actual
conditions. -/
def featureSet (b1 b2 b3 b4 b5 b6 : Bool) : Finset Feature :=
  let features : Finset Feature := ∅
  let features :=
    if b1 then features ∪ {Feature.TURN_ON, Feature.TURN_OFF} else features
  let features :=
    if b2 then features ∪ {Feature.VOLUME_SET, Feature.VOLUME_STEP} else features
  let features :=
    if b3 then features ∪ {Feature.VOLUME_MUTE} else features
  let features :=
    if b4 then features ∪ {Feature.SELECT_SOURCE} else features
  let features :=
    if b5 then features ∪ {Feature.SELECT_SOUND_MODE} else features
  let features :=
    if b6 then features ∪ {Feature.PREVIOUS_TRACK, Feature.NEXT_TRACK} else features
  features

/-- Per-feature reading of the six abstract conditions, one rule per
feature and false for every other feature. -/
def featureSpec (b1 b2 b3 b4 b5 b6 : Bool) : Feature → Bool
  | .TURN_ON => b1
  | .TURN_OFF => b1
  | .VOLUME_SET => b2
  | .VOLUME_STEP => b2
  | .VOLUME_MUTE => b3
  | .SELECT_SOURCE => b4
  | .SELECT_SOUND_MODE => b5
  | .PREVIOUS_TRACK => b6
  | .NEXT_TRACK => b6
  | .PLAY => false
  | .PAUSE => false

/-- Capability rules as the specification states them, one independent rule
per feature: power features iff power was reported, volume features iff a raw
volume was reported, mute iff mute was reported, source selection iff a
source was reported, sound-mode selection iff the zone is the primary zone
and auto query is not disabled, track seeking iff the reported source is the
tuner, and nothing else. -/
def capabilities_spec (p : PioneerState) (zone : Zones) : Feature → Bool
  | .TURN_ON => (p.power.lookup zone).isSome
  | .TURN_OFF => (p.power.lookup zone).isSome
  | .VOLUME_SET => (p.volume.lookup zone).isSome
  | .VOLUME_STEP => (p.volume.lookup zone).isSome
  | .VOLUME_MUTE => (p.mute.lookup zone).isSome
  | .SELECT_SOURCE => (p.source.lookup zone).isSome
  | .SELECT_SOUND_MODE =>
      zone == Zones.Z1 && !((p.params.lookup PARAM_DISABLE_AUTO_QUERY).getD false)
  | .PREVIOUS_TRACK => p.source.lookup zone == some SOURCE_TUNER
  | .NEXT_TRACK => p.source.lookup zone == some SOURCE_TUNER
  | .PLAY => false
  | .PAUSE => false

/-- Model of the base availability gate `PioneerEntityBase.available`
(`entity_base.py:50-56`):
`self.pioneer.available and (self.zone is None or (self.zone in
self.pioneer.zones and self.pioneer.power.get(self.zone)))`, where
`power.get(zone)` is truthy only when the stored value is `True`. -/
def PioneerEntityBase.available (p : PioneerState) (zone : Option Zones) : Bool :=
  p.available &&
    (match zone with
     | none => true
     | some z => p.zones.contains z && (p.power.lookup z).getD false)

/-- Model of the zone-wide gate `PioneerZone.available`
(`media_player.py:291-294`), which overrides the base gate:
`return self.pioneer.available`.  The entity zone is a parameter of the
entity but is not read by this property. -/
def PioneerZone.available (p : PioneerState) (_zone : Zones) : Bool :=
  p.available

/-- Model of the strict tuner gate `PioneerTunerEntity.available`
(`entity_base.py:79-93`): the base gate, and then
`bool([z for z, s in self.pioneer.source.items() if s == SOURCE_TUNER and
self.pioneer.power.get(Zones(z))])`, a non-emptiness test over all zones. -/
def PioneerTunerEntity.available (p : PioneerState) (zone : Option Zones) : Bool :=
  if !(PioneerEntityBase.available p zone) then
    false
  else
    !((p.source.filter
        (fun zs => zs.2 == SOURCE_TUNER && (p.power.lookup zs.1).getD false)).isEmpty)

/-- Python truthiness of an optional integer: `None` and `0` are falsy. -/
def pyTruthyNat : Option Nat → Bool
  | none => false
  | some n => n != 0

/-- Model of `PioneerZone.volume_level` (`media_player.py:296-301`):
`volume / max_volume if (volume and max_volume) else float(0)`, with Python
truthiness of the two optional integers spelled out by `pyTruthyNat`. -/
def PioneerZone.volume_level (p : PioneerState) (zone : Zones) : ℚ :=
  let volume := p.volume.lookup zone
  let max_volume := p.max_volume.lookup zone
  if pyTruthyNat volume && pyTruthyNat max_volume then
    ((volume.getD 0 : Nat) : ℚ) / ((max_volume.getD 0 : Nat) : ℚ)
  else 0

/-- Volume read as the claim describes it: the quotient when both fields are
known and nonzero, and zero in every other case. -/
def volume_level_spec (p : PioneerState) (zone : Zones) : ℚ :=
  match p.volume.lookup zone, p.max_volume.lookup zone with
  | some v, some m => if v ≠ 0 ∧ m ≠ 0 then ((v : Nat) : ℚ) / ((m : Nat) : ℚ) else 0
  | _, _ => 0

/-- State used by the strict tuner gate counterexample: two known, powered-on
zones, the first tuned to the tuner source and the second to a different
source. -/
def tunerGateState : PioneerState where
  available := true
  zones := [Zones.Z1, Zones.Z2]
  power := [(Zones.Z1, true), (Zones.Z2, true)]
  volume := []
  max_volume := []
  mute := []
  source := [(Zones.Z1, SOURCE_TUNER), (Zones.Z2, "01")]
  params := []

/-- Invocation count of a retrying trace prefix. -/
theorem retryTraceFrom_countP_call : ∀ (j c : Nat), (retryTraceFrom c j).countP isCall = j := by
  intro j
  induction j with
  | zero => intro c; simp [retryTraceFrom]
  | succ n ih => intro c; simp [retryTraceFrom, List.countP_cons, isCall, ih]

/-- Sleep count of a retrying trace prefix. -/
theorem retryTraceFrom_countP_sleep : ∀ (j c : Nat), (retryTraceFrom c j).countP isSleep = j := by
  intro j
  induction j with
  | zero => intro c; simp [retryTraceFrom]
  | succ n ih => intro c; simp [retryTraceFrom, List.countP_cons, isSleep, ih]

/-- Unrolling lemma for the retry loop: `j` consecutive not-accepted results
contribute `j` call-sleep pairs to the trace and leave the loop with `j`
fewer remaining attempts. -/
theorem pioneer_command_go_skip (name : String) (act : Nat → ActionResult) :
    ∀ (j c fuel : Nat), j ≤ fuel →
    (∀ i, i < j → act (c + i) = ActionResult.notAccepted) →
    pioneer_command_go name act fuel c =
      ⟨retryTraceFrom c j ++ (pioneer_command_go name act (fuel - j) (c + j)).trace,
       (pioneer_command_go name act (fuel - j) (c + j)).outcome⟩ := by
  intro j
  induction j with
  | zero =>
    intro c fuel _ _
    simp [retryTraceFrom]
  | succ n ih =>
    intro c fuel hle hfail
    cases fuel with
    | zero => exact absurd hle (Nat.not_succ_le_zero n)
    | succ f =>
      have h0 : act c = ActionResult.notAccepted := by
        simpa using hfail 0 (Nat.succ_pos n)
      have ihc := ih (c + 1) f (Nat.le_of_succ_le_succ hle) (fun i hi => by
        have := hfail (i + 1) (Nat.succ_lt_succ hi)
        simpa [Nat.add_assoc, Nat.add_comm, Nat.add_left_comm] using this)
      simp [pioneer_command_go, h0, retryTraceFrom, ihc, Nat.succ_sub_succ,
        Nat.add_assoc, Nat.add_comm, Nat.add_left_comm]

/-- Exhaustion lemma: when every invocation returns the not-accepted signal,
the loop consumes all remaining attempts, sleeping once after each, and
surfaces the wrapped unavailable message. -/
theorem pioneer_command_go_exhaust (name : String) (act : Nat → ActionResult)
    (h : ∀ i, act i = ActionResult.notAccepted) :
    ∀ (fuel c : Nat), pioneer_command_go name act fuel c =
      ⟨retryTraceFrom c fuel, Outcome.Exhausted (failedMsg name (unavailMsg name))⟩ := by
  intro fuel
  induction fuel with
  | zero => intro c; simp [pioneer_command_go, retryTraceFrom]
  | succ f ih => intro c; simp [pioneer_command_go, h c, retryTraceFrom, ih]

/-- Claim C1: with retries enabled, if the command coroutine returns the
not-accepted signal on its first k-1 invocations and an accepted result on
the k-th, with k at most `max_count`, then `pioneer_command` returns
normally (Confirmed), the coroutine is invoked exactly k times, and exactly
one inter-attempt sleep separates each pair of consecutive invocations, as
the explicit trace shows. -/
theorem claim_C1 (name : String) (act : Nat → ActionResult) (k max_count : Nat)
    (hk1 : 1 ≤ k) (hk2 : k ≤ max_count)
    (hfail : ∀ i, i < k - 1 → act i = ActionResult.notAccepted)
    (hacc : act (k - 1) = ActionResult.accepted) :
    pioneer_command name act max_count =
      ⟨retryTraceFrom 0 (k - 1) ++ [Event.call (k - 1)], Outcome.Confirmed⟩ ∧
    (pioneer_command name act max_count).trace.countP isCall = k ∧
    (pioneer_command name act max_count).trace.countP isSleep = k - 1 := by
  have hskip := pioneer_command_go_skip name act (k - 1) 0 max_count (by omega)
    (fun i hi => by simpa using hfail i hi)
  have hrest : max_count - (k - 1) = (max_count - k) + 1 := by omega
  have hstep : pioneer_command_go name act (max_count - (k - 1)) (0 + (k - 1)) =
      ⟨[Event.call (k - 1)], Outcome.Confirmed⟩ := by
    rw [hrest]
    simp [pioneer_command_go, hacc]
  have hmain : pioneer_command name act max_count =
      ⟨retryTraceFrom 0 (k - 1) ++ [Event.call (k - 1)], Outcome.Confirmed⟩ := by
    rw [pioneer_command, hskip, hstep]
  refine ⟨hmain, ?_, ?_⟩
  · rw [hmain]
    simp [List.countP_append, retryTraceFrom_countP_call, List.countP_cons, isCall]
    omega
  · rw [hmain]
    simp [List.countP_append, retryTraceFrom_countP_sleep, List.countP_cons, isSleep]

/-- Witness for claim C1: a coroutine that is not accepted once and then
accepted is invoked twice with one sleep in between and confirms. -/
theorem claim_C1_witness :
    pioneer_command "turn_on"
      (fun i => if i == 0 then ActionResult.notAccepted else ActionResult.accepted) 4 =
      ⟨[Event.call 0, Event.sleep, Event.call 1], Outcome.Confirmed⟩ := by
  have h := claim_C1 "turn_on"
    (fun i => if i == 0 then ActionResult.notAccepted else ActionResult.accepted) 2 4
    (by decide) (by decide)
    (by
      intro i hi
      cases i with
      | zero => rfl
      | succ n => exact absurd hi (by omega))
    (by rfl)
  simpa [retryTraceFrom] using h.1

/-- Claim C2: when the coroutine returns the not-accepted signal on every
invocation, `pioneer_command` invokes it exactly `max_count` times, no more
and no less, and surfaces the exhausted failure; the default bound is 4
total tries. -/
theorem claim_C2 (name : String) (act : Nat → ActionResult) (max_count : Nat)
    (h : ∀ i, act i = ActionResult.notAccepted) :
    pioneer_command name act max_count =
      ⟨retryTraceFrom 0 max_count, Outcome.Exhausted (failedMsg name (unavailMsg name))⟩ ∧
    (pioneer_command name act max_count).trace.countP isCall = max_count ∧
    pioneer_command name act =
      ⟨retryTraceFrom 0 4, Outcome.Exhausted (failedMsg name (unavailMsg name))⟩ := by
  have hmain := pioneer_command_go_exhaust name act h max_count 0
  have hdef := pioneer_command_go_exhaust name act h 4 0
  refine ⟨hmain, ?_, hdef⟩
  rw [pioneer_command, hmain]
  simp [retryTraceFrom_countP_call]

/-- Witness for claim C2: a never-accepted coroutine under the default bound
is invoked exactly 4 times and the exhausted failure is surfaced. -/
theorem claim_C2_witness :
    pioneer_command "turn_on" (fun _ => ActionResult.notAccepted) 4 =
      ⟨[Event.call 0, Event.sleep, Event.call 1, Event.sleep,
        Event.call 2, Event.sleep, Event.call 3, Event.sleep],
       Outcome.Exhausted (failedMsg "turn_on" (unavailMsg "turn_on"))⟩ := by
  have h := claim_C2 "turn_on" (fun _ => ActionResult.notAccepted) 4 (fun _ => rfl)
  simpa [retryTraceFrom] using h.1

/-- Claim C4: if the coroutine raises on its j-th invocation (after j
not-accepted results), the executor makes no further attempt: the trace ends
at that invocation and the failure is surfaced at once as the wrapping
rejection naming the command and the underlying cause. -/
theorem claim_C4 (name : String) (act : Nat → ActionResult) (max_count j : Nat)
    (msg : String) (hj : j < max_count)
    (hfail : ∀ i, i < j → act i = ActionResult.notAccepted)
    (hraise : act j = ActionResult.raises msg) :
    pioneer_command name act max_count =
      ⟨retryTraceFrom 0 j ++ [Event.call j], Outcome.Rejected (failedMsg name msg)⟩ ∧
    (pioneer_command name act max_count).trace.countP isCall = j + 1 := by
  have hskip := pioneer_command_go_skip name act j 0 max_count (by omega)
    (fun i hi => by simpa using hfail i hi)
  have hrest : max_count - j = (max_count - j - 1) + 1 := by omega
  have hstep : pioneer_command_go name act (max_count - j) (0 + j) =
      ⟨[Event.call j], Outcome.Rejected (failedMsg name msg)⟩ := by
    rw [hrest]
    simp [pioneer_command_go, hraise]
  have hmain : pioneer_command name act max_count =
      ⟨retryTraceFrom 0 j ++ [Event.call j], Outcome.Rejected (failedMsg name msg)⟩ := by
    rw [pioneer_command, hskip, hstep]
  refine ⟨hmain, ?_⟩
  rw [hmain]
  simp [List.countP_append, retryTraceFrom_countP_call, List.countP_cons, isCall]

/-- Witness for claim C4: a coroutine raising on the very first invocation is
invoked exactly once, with zero retries, and the wrapped cause is surfaced. -/
theorem claim_C4_witness :
    pioneer_command "turn_on" (fun _ => ActionResult.raises "connection lost") 4 =
      ⟨[Event.call 0], Outcome.Rejected (failedMsg "turn_on" "connection lost")⟩ := by
  have h := claim_C4 "turn_on" (fun _ => ActionResult.raises "connection lost") 4 0
    "connection lost" (by decide) (by intro i hi; omega) (by rfl)
  simpa [retryTraceFrom] using h.1

/-- Digit-freeness distributes over string append. -/
theorem digitFree_append (a b : String) :
    digitFree (a ++ b) = (digitFree a && digitFree b) := by
  simp [digitFree, String.data_append, List.all_append]

/-- Claim C5, amended: the failure surfaced when the attempt bound is reached
names the command (the command name occurs in the surfaced message, which
reads failed-wrapping-unavailable) but not the number of attempts made: when
the command name itself contains no digit, the whole message contains no
digit. -/
theorem claim_C5 (name : String) (act : Nat → ActionResult) (max_count : Nat)
    (h : ∀ i, act i = ActionResult.notAccepted) :
    (pioneer_command name act max_count).outcome =
      Outcome.Exhausted (failedMsg name (unavailMsg name)) ∧
    (∃ p s, failedMsg name (unavailMsg name) = p ++ name ++ s) ∧
    (digitFree name = true → digitFree (failedMsg name (unavailMsg name)) = true) := by
  refine ⟨?_, ?_, ?_⟩
  · rw [pioneer_command, pioneer_command_go_exhaust name act h max_count 0]
  · refine ⟨"AVR command ", " failed: " ++ unavailMsg name, ?_⟩
    simp [failedMsg, String.append_assoc]
  · intro hname
    simp [failedMsg, unavailMsg, digitFree_append, hname]
    decide

/-- Witness for the amended claim C5 at a concrete command. -/
theorem claim_C5_witness :
    (pioneer_command "turn_on" (fun _ => ActionResult.notAccepted) 4).outcome =
      Outcome.Exhausted (failedMsg "turn_on" (unavailMsg "turn_on")) ∧
    digitFree (failedMsg "turn_on" (unavailMsg "turn_on")) = true := by
  have h := claim_C5 "turn_on" (fun _ => ActionResult.notAccepted) 4 (fun _ => rfl)
  exact ⟨h.1, h.2.2 (by decide)⟩

/-- Counterexample to claim C5 as stated: a concrete exhausted run makes 4
attempts, yet the surfaced message is a fixed digit-free string, so it cannot
name the number 4 of attempts made. -/
theorem claim_C5_cex :
    (pioneer_command "turn_on" (fun _ => ActionResult.notAccepted) 4).outcome =
      Outcome.Exhausted "AVR command turn_on failed: AVR command turn_on unavailable" ∧
    (pioneer_command "turn_on" (fun _ => ActionResult.notAccepted) 4).trace.countP isCall = 4 ∧
    digitFree "AVR command turn_on failed: AVR command turn_on unavailable" = true := by
  decide

/-- Claim C3: a volume step command makes at most one attempt — its closure
is invoked exactly once with no inter-attempt sleep, whatever the underlying
`pioneer.volume_up` call does (accepted, not accepted, or raising): the
closure discards the device-call result and returns `None`, which is not the
literal `False` the retry loop tests, so the loop exits after the first
invocation. -/
theorem claim_C3 : ∀ (dev : Nat → ActionResult),
    (async_volume_up dev).trace = [Event.call 0] ∧
    (async_volume_up dev).trace.countP isCall = 1 := by
  intro dev
  cases h : dev 0 <;>
    simp [async_volume_up, pioneer_command_call, unexpected_kwargs, pioneer_command,
      pioneer_command_go, discardResult, h, isCall, List.countP_cons,
      pioneer_command_param_names]

/-- Claim C6: every high-level operation passing `repeat=True` (or
`command=...` for send_command) calls `pioneer_command` with a keyword that
is not among its parameters `aw_f, max_count`, so Python raises `TypeError`
with an empty trace: the command coroutine is never invoked.  The
`set_volume_level` case is shown for a state whose `PARAM_VOLUME_STEP_ONLY`
parameter is unset, which selects the `repeat=True` branch. -/
theorem claim_C6 : ∀ (act : Nat → ActionResult),
    async_turn_on act = ⟨[], Outcome.TypeErrorUnexpectedKw "repeat"⟩ ∧
    async_turn_off act = ⟨[], Outcome.TypeErrorUnexpectedKw "repeat"⟩ ∧
    async_select_source act = ⟨[], Outcome.TypeErrorUnexpectedKw "repeat"⟩ ∧
    async_mute_volume act = ⟨[], Outcome.TypeErrorUnexpectedKw "repeat"⟩ ∧
    async_select_sound_mode act = ⟨[], Outcome.TypeErrorUnexpectedKw "repeat"⟩ ∧
    async_set_volume_level ⟨true, [], [], [], [], [], [], []⟩ act =
      ⟨[], Outcome.TypeErrorUnexpectedKw "repeat"⟩ ∧
    async_set_tone_settings act = ⟨[], Outcome.TypeErrorUnexpectedKw "repeat"⟩ ∧
    async_select_tuner_band act = ⟨[], Outcome.TypeErrorUnexpectedKw "repeat"⟩ ∧
    async_set_fm_tuner_frequency act = ⟨[], Outcome.TypeErrorUnexpectedKw "repeat"⟩ ∧
    async_set_am_tuner_frequency act = ⟨[], Outcome.TypeErrorUnexpectedKw "repeat"⟩ ∧
    async_select_tuner_preset act = ⟨[], Outcome.TypeErrorUnexpectedKw "repeat"⟩ ∧
    async_set_channel_levels act = ⟨[], Outcome.TypeErrorUnexpectedKw "repeat"⟩ ∧
    async_send_command act = ⟨[], Outcome.TypeErrorUnexpectedKw "command"⟩ := by
  intro act
  exact ⟨rfl, rfl, rfl, rfl, rfl, rfl, rfl, rfl, rfl, rfl, rfl, rfl, rfl⟩

/-- Membership in the abstract feature accumulation is exactly the
per-feature reading of the conditions, checked over all condition
combinations. -/
theorem featureSet_mem_featureSpec :
    ∀ (b1 b2 b3 b4 b5 b6 : Bool) (f : Feature),
    f ∈ featureSet b1 b2 b3 b4 b5 b6 ↔ featureSpec b1 b2 b3 b4 b5 b6 f = true := by
  decide

/-- Claim C7: membership in the feature set resolved by `supported_features`
coincides exactly with the six independent rules of the specification, and no
other feature is ever granted. -/
theorem claim_C7 : ∀ (p : PioneerState) (zone : Zones) (f : Feature),
    f ∈ supported_features p zone ↔ capabilities_spec p zone f = true := by
  intro p zone f
  have h := featureSet_mem_featureSpec
    ((p.power.lookup zone).isSome) ((p.volume.lookup zone).isSome)
    ((p.mute.lookup zone).isSome) ((p.source.lookup zone).isSome)
    (zone == Zones.Z1 && !((p.params.lookup PARAM_DISABLE_AUTO_QUERY).getD false))
    (p.source.lookup zone == some SOURCE_TUNER) f
  cases f <;> exact h

/-- Claim C8: the zone-wide availability gate equals device-wide availability
for every zone and every stored per-zone state: replacing all per-zone
dictionaries leaves it unchanged, so an unavailable device makes every zone
unavailable and an available device makes every zone available even when the
zone power is off or unknown. -/
theorem claim_C8 : ∀ (p : PioneerState) (zone : Zones) (pw : List (Zones × Bool))
    (vol mv : List (Zones × Nat)) (mu : List (Zones × Bool))
    (src : List (Zones × String)),
    PioneerZone.available
      { p with power := pw, volume := vol, max_volume := mv, mute := mu, source := src }
      zone = p.available :=
  fun _ _ _ _ _ _ _ => rfl

/-- Non-emptiness of a filtered list is existence of a member satisfying the
predicate. -/
theorem filter_not_isEmpty_iff {α : Type} (q : α → Bool) (l : List α) :
    (!(l.filter q).isEmpty) = true ↔ ∃ x, x ∈ l ∧ q x = true := by
  induction l with
  | nil => simp
  | cons a t ih =>
    by_cases h : q a = true
    · rw [List.filter_cons, if_pos h]
      simp only [List.isEmpty_cons, Bool.not_false]
      constructor
      · intro _
        exact ⟨a, List.mem_cons_self a t, h⟩
      · intro _
        trivial
    · rw [List.filter_cons, if_neg h, ih]
      constructor
      · rintro ⟨x, hx, hq⟩
        exact ⟨x, List.mem_cons_of_mem a hx, hq⟩
      · rintro ⟨x, hx, hq⟩
        rcases List.mem_cons.mp hx with hxa | hxt
        · exact absurd (hxa ▸ hq) h
        · exact ⟨x, hxt, hq⟩

/-- Claim C9, amended: the strict tuner gate holds iff the base gate holds
(device available and, when the entity has a zone, that zone known and
powered on) and some powered-on zone reports the tuner source; the gate does
not require the source of the zone in question to be the tuner. -/
theorem claim_C9 : ∀ (p : PioneerState) (zone : Option Zones),
    PioneerTunerEntity.available p zone = true ↔
      (PioneerEntityBase.available p zone = true ∧
       ∃ zs, zs ∈ p.source ∧ zs.2 = SOURCE_TUNER ∧
         (p.power.lookup zs.1).getD false = true) := by
  intro p zone
  unfold PioneerTunerEntity.available
  cases hb : PioneerEntityBase.available p zone with
  | false => simp [hb]
  | true =>
    simp [hb, filter_not_isEmpty_iff, Bool.and_eq_true, beq_iff_eq, and_assoc]

/-- Counterexample to claim C9 as stated: with two known powered-on zones
where only the first reports the tuner source, the gate for an entity bound
to the second zone returns true although that zone, powered on, reports a
non-tuner source. -/
theorem claim_C9_cex :
    PioneerTunerEntity.available tunerGateState (some Zones.Z2) = true ∧
    ¬ tunerGateState.source.lookup Zones.Z2 = some SOURCE_TUNER ∧
    (tunerGateState.power.lookup Zones.Z2).getD false = true ∧
    tunerGateState.available = true := by
  decide

/-- Claim C10: the volume read is total and matches the claimed case split:
it is the quotient of the raw volume by the maximum volume when both are
reported and nonzero (so the divisor of the quotient case is never zero), and
it is zero in every other case, including an unreported field, a zero
maximum, or a zero raw volume. -/
theorem claim_C10 : ∀ (p : PioneerState) (zone : Zones),
    PioneerZone.volume_level p zone = volume_level_spec p zone ∧
    (PioneerZone.volume_level p zone = 0 ∨
      ∃ v m : Nat, p.volume.lookup zone = some v ∧ p.max_volume.lookup zone = some m ∧
        v ≠ 0 ∧ m ≠ 0 ∧ PioneerZone.volume_level p zone = ((v : Nat) : ℚ) / ((m : Nat) : ℚ)) := by
  intro p zone
  unfold PioneerZone.volume_level volume_level_spec
  cases hv : p.volume.lookup zone with
  | none => simp [pyTruthyNat]
  | some v =>
    cases hm : p.max_volume.lookup zone with
    | none => simp [pyTruthyNat]
    | some m =>
      by_cases hv0 : v = 0
      · simp [pyTruthyNat, hv0]
      · by_cases hm0 : m = 0
        · simp [pyTruthyNat, hv0, hm0]
        · refine ⟨by simp [pyTruthyNat, hv0, hm0], Or.inr ⟨v, m, rfl, rfl, hv0, hm0, ?_⟩⟩
          simp [pyTruthyNat, hv0, hm0]

end PioneerAsync
